import Mathlib

/-!
Shallow embedding of the per-account settlement engine of
`ilp-plugin-ethereum` (`src/account.ts`), together with proofs of the
frozen specification claims.

Modelling conventions:
* `BigNumber` amounts become `Int` (arbitrary-precision; wei and gwei
  amounts are integers throughout the source).
* `BigNumber.ROUND_DOWN` rounds toward zero, which is `Int.tdiv`.
* JavaScript `toLowerCase()` becomes `toLowerStr` (character-wise
  `Char.toLower`), kept executable so witnesses can evaluate it.
* Asynchronous I/O (on-chain fetches, signature verification, the
  persistent store, transaction fees) is passed in as an explicit
  environment, fixed for the duration of one reducer invocation.
-/

namespace IlpEth

/-- Embedding of JavaScript `String.prototype.toLowerCase` used for the
case-insensitive address and contract comparisons in `account.ts`. -/
def toLowerStr (s : String) : String := ⟨s.data.map Char.toLower⟩

/-- Number of wei per gwei (`1 gwei = 10^9 wei`). -/
def gweiFactor : Int := 1000000000

/-- Embedding of `convert(gwei x, wei())`: exact multiplication. -/
def gweiToWei (g : Int) : Int := g * gweiFactor

/-- Embedding of `convert(wei x, gwei()).decimalPlaces(0, BigNumber.ROUND_DOWN)`:
division rounded toward zero (`BigNumber.ROUND_DOWN` truncates). -/
def weiToGwei (w : Int) : Int := Int.tdiv w gweiFactor

/-- A payment channel as cached by the account (`PaymentChannel` /
`ClaimablePaymentChannel` from `utils/channel`, shape given by spec §3):
on-chain fields plus the latest claim's `spent` and `signature`. -/
structure PaymentChannel where
  channelId : String
  contractAddress : String
  sender : String
  receiver : String
  value : Int
  disputePeriod : Int
  disputedUntil : Option Int
  spent : Int
  signature : String
deriving DecidableEq, Repr

/-- A machinomy claim after JSON parsing and schema check
(`SerializedClaim`); `value` is the parsed decimal string. -/
structure SerializedClaim where
  channelId : String
  signature : String
  value : Int
  contractAddress : String
deriving DecidableEq, Repr

/-- Log levels used by `account.ts` (`_log.debug` / `_log.error`). -/
inductive LogLevel
  | debug
  | error
deriving DecidableEq, Repr

/-- Modelled from the spec: `remainingInChannel` of `utils/channel`
(missing from src/), "remaining capacity (= value − spent)" (§4.2). -/
def remainingInChannel (c : PaymentChannel) : Int := c.value - c.spent

/-- Modelled from the spec: `spentFromChannel` of `utils/channel`
(missing from src/), "value of old best claim" — the channel's `spent`. -/
def spentFromChannel (c : PaymentChannel) : Int := c.spent

/-- Modelled from the spec: `isDisputed` of `utils/channel` (missing from
src/), "`disputedUntil` (optional block height; when set the channel is
in dispute)" (§3). -/
def isDisputed (c : PaymentChannel) : Bool := c.disputedUntil.isSome

/-! ## Outgoing settlement: `createClaim` and the deposit merge -/

/-- Balance fields of the account mutated by `createClaim`
(both in gwei, per `AccountData`). -/
structure OutgoingAccountState where
  payableBalance : Int
  payoutAmount : Int
deriving DecidableEq, Repr

/-- Environment for claim signing: the signer over
`(contractAddress, channelId, value)` producing the flat signature. -/
structure SignEnv where
  sign : String → String → Int → String

/-- Embedding of `signClaim` (`account.ts` lines 580–611): returns the
channel updated with the new `spent` and flat signature. -/
def signClaim (env : SignEnv) (value : Int) (cachedChannel : PaymentChannel) :
    PaymentChannel :=
  { cachedChannel with
    spent := value
    signature := env.sign cachedChannel.contractAddress cachedChannel.channelId value }

/-- Embedding of `createClaim` (`account.ts` lines 505–578): the
claim-producing reducer over the outgoing cell. Returns the updated
balance fields and the new cell state. The fire-and-forget
`autoFundOutgoingChannel` trigger and claim transmission touch no state
modelled here and are omitted. -/
def createClaim (env : SignEnv) (st : OutgoingAccountState)
    (cachedChannel : Option PaymentChannel) :
    OutgoingAccountState × Option PaymentChannel :=
  let settlementBudget := gweiToWei st.payoutAmount
  if settlementBudget ≤ 0 then (st, cachedChannel)
  else
    match cachedChannel with
    | none => (st, none)
    | some ch =>
      if ¬ (remainingInChannel ch > 0) then (st, some ch)
      else
        let claimIncrement := min (remainingInChannel ch) settlementBudget
        let value := spentFromChannel ch + claimIncrement
        let updatedChannel := signClaim env value ch
        let claimIncrementGwei := weiToGwei claimIncrement
        ({ payableBalance := st.payableBalance - claimIncrementGwei
           payoutAmount := min 0 (st.payoutAmount - claimIncrementGwei) },
         some updatedChannel)

/-- Embedding of the commit step of `depositToChannel` (`account.ts`
lines 464–485): on transaction success, merge the refreshed on-chain
snapshot with the deposit side-queue's final claim state; on failure,
commit the side-queue's final state unchanged. -/
def depositToChannelCommit (txSuccess : Bool) (updatedChannel : PaymentChannel)
    (sideQueueFinal : Option PaymentChannel) : Option PaymentChannel :=
  if txSuccess then
    some
      (match sideQueueFinal with
       | some forkedState =>
         { updatedChannel with
           signature := forkedState.signature
           spent := forkedState.spent }
       | none => updatedChannel)
  else sideQueueFinal

/-! ## Forwarding hooks: the `ilp` branch of `handleData` -/

/-- Outcome of the data handler for a forwarded PREPARE: the
deserialized reply is either a FULFILL or a REJECT. -/
inductive IlpReplyKind
  | fulfill
  | reject
deriving DecidableEq, Repr

/-- Response of the `ilp` branch of `handleData`: an ILP error reply
produced by `errorToReject` or the data handler's own reply. -/
inductive IlpResponseKind
  | amountTooLarge
  | insufficientLiquidity
  | handled (r : IlpReplyKind)
deriving DecidableEq, Repr

/-- Embedding of the `ilp` branch of `handleData` (`account.ts` lines
787–853): per-packet size cap, receivable cap, credit on commit, and
rollback when the data handler replies REJECT. Returns the reply sent to
the peer and the final `receivableBalance`. -/
def handleIlpPrepare (maxPacketAmount maxBalance : Int)
    (receivableBalance : Int) (amount : Int) (reply : IlpReplyKind) :
    IlpResponseKind × Int :=
  if amount > maxPacketAmount then (.amountTooLarge, receivableBalance)
  else
    let newBalance := receivableBalance + amount
    if newBalance > maxBalance then (.insufficientLiquidity, receivableBalance)
    else
      match reply with
      | .reject => (.handled .reject, newBalance - amount)
      | .fulfill => (.handled .fulfill, newBalance)

/-! ## Incoming validation: `validateClaim` -/

/-- Environment fixed during one `validateClaim` invocation: configured
addresses and dispute floor, the on-chain channel lookup, the signature
verifier, and the persistent `channelId → accountName` registry. -/
structure ValidateEnv where
  contractAddress : String
  walletAddress : String
  minIncomingDisputePeriod : Int
  accountName : String
  fetchChannel : String → Option PaymentChannel
  isValidSig : SerializedClaim → PaymentChannel → Bool
  registry : String → Option String

/-- Observable outcome of one `validateClaim` invocation: the new
incoming cell state, the gwei debited from `receivableBalance`, the gwei
amount passed to `moneyHandler` (if invoked), the registry binding
written (if any), the log entries emitted, and whether the claim was
accepted. -/
structure ValidateOutcome where
  channel : Option PaymentChannel
  receivableDebit : Int
  moneyHandlerArg : Option Int
  registryWrite : Option (String × String)
  logs : List LogLevel
  accepted : Bool
deriving DecidableEq, Repr

/-- Result of the check sequence of `validateClaim` before any retry
bookkeeping: an immediate rejection (with the level of its log), a
bounded retry (missing channel or insufficient on-chain value), or a
commit of the validated claim against `updatedChannel`. -/
inductive StepResult
  | rejected (lvl : LogLevel)
  | retry
  | commit (updatedChannel : PaymentChannel)
deriving DecidableEq, Repr

/-- Store key for the channel-uniqueness registry
(`channelId:incoming-channel`). -/
def channelKey (channelId : String) : String := channelId ++ ":incoming-channel"

/-- Embedding of the checks of `validateClaim` shared by both branches
(`account.ts` lines 940–1028): non-negative value, contract match,
signature, channel capacity (retrying), uniqueness registry (new
channels), and novelty (existing channels). -/
def universalChecks (env : ValidateEnv) (claim : SerializedClaim)
    (cachedChannel : Option PaymentChannel) (updatedChannel : PaymentChannel) :
    StepResult :=
  if claim.value < 0 then .rejected .error
  else if toLowerStr claim.contractAddress ≠ toLowerStr env.contractAddress then
    .rejected .debug
  else if ¬ env.isValidSig claim updatedChannel then .rejected .debug
  else if ¬ (updatedChannel.value ≥ claim.value) then .retry
  else
    match cachedChannel with
    | none =>
      match env.registry (channelKey claim.channelId) with
      | some _ => .rejected .debug
      | none => .commit updatedChannel
    | some cached =>
      let claimIncrement := min claim.value updatedChannel.value - cached.spent
      if ¬ (claimIncrement > 0) then .rejected .debug
      else .commit updatedChannel

/-- Embedding of one pass of `validateClaim`'s check sequence
(`account.ts` lines 863–1028): the fetch gate (`shouldFetchChannel` is
true with no cached claim, or when `claim.value > cached.value`; the
fetch is inlined into each branch's scrutinee), the new-channel branch
(receiver and dispute-period checks), the existing-channel branch
(presence and channel-identity checks), then the universal checks. -/
def validateStep (env : ValidateEnv) (claim : SerializedClaim)
    (cachedChannel : Option PaymentChannel) : StepResult :=
  match cachedChannel with
  | none =>
    match env.fetchChannel claim.channelId with
    | none => .retry
    | some updatedChannel =>
      if toLowerStr updatedChannel.receiver ≠ toLowerStr env.walletAddress then
        .rejected .debug
      else if ¬ (updatedChannel.disputePeriod ≥ env.minIncomingDisputePeriod) then
        .rejected .debug
      else universalChecks env claim none updatedChannel
  | some cached =>
    match (if claim.value > cached.value then env.fetchChannel claim.channelId
           else some cached) with
    | none => .rejected .error
    | some updatedChannel =>
      if claim.channelId ≠ cached.channelId then .rejected .debug
      else universalChecks env claim (some cached) updatedChannel

/-- Outcome of a `validateClaim` rejection: every failing check returns
the unchanged prior state, performs no balance or registry operation,
and logs once. -/
def rejectOutcome (cachedChannel : Option PaymentChannel) (lvl : LogLevel) :
    ValidateOutcome :=
  { channel := cachedChannel
    receivableDebit := 0
    moneyHandlerArg := none
    registryWrite := none
    logs := [lvl]
    accepted := false }

/-- Outcome of a `validateClaim` commit (`account.ts` lines 1013–1062):
the registry binding for a new channel, the balance operations when the
claim increment is positive, the acceptance debug log, and the new cell
state carrying the claim's `channelId`, `contractAddress`, `signature`,
and `spent := claim.value`. -/
def commitOutcome (env : ValidateEnv) (claim : SerializedClaim)
    (cachedChannel : Option PaymentChannel) (updatedChannel : PaymentChannel) :
    ValidateOutcome :=
  let claimIncrement :=
    min claim.value updatedChannel.value -
      (match cachedChannel with
       | some c => c.spent
       | none => 0)
  let isBestClaim := claimIncrement > 0
  { channel := some
      { updatedChannel with
        channelId := claim.channelId
        contractAddress := claim.contractAddress
        signature := claim.signature
        spent := claim.value }
    receivableDebit := if isBestClaim then weiToGwei claimIncrement else 0
    moneyHandlerArg := if isBestClaim then some (weiToGwei claimIncrement) else none
    registryWrite :=
      match cachedChannel with
      | none => some (channelKey claim.channelId, env.accountName)
      | some _ => none
    logs := [.debug]
    accepted := true }

/-- Embedding of `validateClaim` (`account.ts` lines 863–1062): the
reducer over the incoming cell, with the bounded 20-attempt retry
recursion (each retry re-runs the whole check sequence; the 250 ms sleep
is untimed here). The environment is fixed across retries. -/
def validateClaim (env : ValidateEnv) (claim : SerializedClaim)
    (cachedChannel : Option PaymentChannel) (attempts : Nat) : ValidateOutcome :=
  match validateStep env claim cachedChannel with
  | .rejected lvl => rejectOutcome cachedChannel lvl
  | .retry =>
    if h : attempts > 20 then rejectOutcome cachedChannel .debug
    else validateClaim env claim cachedChannel (attempts + 1)
  | .commit updatedChannel => commitOutcome env claim cachedChannel updatedChannel
termination_by 21 - attempts
decreasing_by omega

/-! ## The `machinomy` branch of `handleData` -/

/-- Payload of an incoming `machinomy` message, after the transport
layer: JSON that fails to parse (`JSON.parse` throws), JSON that parses
but fails `hasValidSchema`, or a well-formed claim. -/
inductive MachinomyPayload
  | malformed
  | badSchema
  | claim (c : SerializedClaim)
deriving DecidableEq, Repr

/-- Observable outcome of the `machinomy` branch of `handleData`:
whether an error escaped `handleData`, the resulting incoming cell
state, and the log entries emitted. The returned sub-protocol frame list
is always empty on this branch. -/
structure MachinomyOutcome where
  threw : Bool
  state : Option PaymentChannel
  logs : List LogLevel
deriving DecidableEq, Repr

/-- Embedding of the `machinomy` branch of `handleData` (`account.ts`
lines 746–783): the handling banner is logged at debug, malformed JSON
throws out of `handleData`, a schema failure is logged at debug and
dropped, and otherwise `validateClaim` runs on the incoming queue (its
internal rejections return the prior state; the surrounding catch keeps
errors from propagating). The fire-and-forget `autoFundOutgoingChannel`
trigger touches only the outgoing queue and is omitted. -/
def handleMachinomy (env : ValidateEnv) (payload : MachinomyPayload)
    (cachedChannel : Option PaymentChannel) : MachinomyOutcome :=
  match payload with
  | .malformed => { threw := true, state := cachedChannel, logs := [.debug] }
  | .badSchema => { threw := false, state := cachedChannel, logs := [.debug, .debug] }
  | .claim c =>
    let r := validateClaim env c cachedChannel 0
    { threw := false, state := r.channel, logs := .debug :: r.logs }

/-! ## Channel watcher: `claimIfProfitable` -/

/-- Environment for one `claimIfProfitable` invocation: the on-chain
refresh of the cached channel (`updateChannel`) and the estimated
transaction fee in wei. -/
structure ClaimChannelEnv where
  updateChannel : PaymentChannel → Option PaymentChannel
  txFee : Int

/-- Observable outcome of `claimIfProfitable`: the new incoming cell
state and whether the claim transaction was submitted. -/
structure ClaimChannelResult where
  channel : Option PaymentChannel
  txSubmitted : Bool
deriving DecidableEq, Repr

/-- Embedding of the reducer body of `claimIfProfitable` (`account.ts`
lines 1129–1216): no-op when no channel is cached or the channel
vanished on-chain; no-op when `requireDisputed` holds but the refreshed
channel is not disputed; the go/no-go decision is the `authorize`
callback's when supplied (`some decision`), else submit iff the fee is
not `≥ spent`. After a submitted claim, the refresh loop waits for
on-chain absence and the reducer commits `none`. -/
def claimIfProfitable (env : ClaimChannelEnv) (requireDisputed : Bool)
    (authorize : Option Bool) (cachedChannel : Option PaymentChannel) :
    ClaimChannelResult :=
  match cachedChannel with
  | none => { channel := none, txSubmitted := false }
  | some cached =>
    match env.updateChannel cached with
    | none => { channel := none, txSubmitted := false }
    | some updatedChannel =>
      if requireDisputed ∧ ¬ isDisputed updatedChannel then
        { channel := some updatedChannel, txSubmitted := false }
      else
        match authorize with
        | some isAuthorized =>
          if isAuthorized then { channel := none, txSubmitted := true }
          else { channel := some updatedChannel, txSubmitted := false }
        | none =>
          if env.txFee ≥ updatedChannel.spent then
            { channel := some updatedChannel, txSubmitted := false }
          else { channel := none, txSubmitted := true }

/-! ## Helper lemmas -/

/-- Because the environment (and hence the on-chain state) is fixed
during one invocation, the bounded retry recursion of `validateClaim`
flattens: a retrying check sequence always ends rejected with a debug
log once the attempts are exhausted. -/
theorem validateClaim_eq (env : ValidateEnv) (claim : SerializedClaim)
    (cachedChannel : Option PaymentChannel) (attempts : Nat) :
    validateClaim env claim cachedChannel attempts =
      match validateStep env claim cachedChannel with
      | .rejected lvl => rejectOutcome cachedChannel lvl
      | .retry => rejectOutcome cachedChannel .debug
      | .commit upd => commitOutcome env claim cachedChannel upd := by
  have H : ∀ n attempts, 21 - attempts ≤ n →
      validateClaim env claim cachedChannel attempts =
        (match validateStep env claim cachedChannel with
         | .rejected lvl => rejectOutcome cachedChannel lvl
         | .retry => rejectOutcome cachedChannel .debug
         | .commit upd => commitOutcome env claim cachedChannel upd) := by
    intro n
    induction n with
    | zero =>
      intro attempts h
      rw [validateClaim.eq_def]
      cases hs : validateStep env claim cachedChannel with
      | rejected lvl => rfl
      | retry => simp only; rw [dif_pos (by omega)]
      | commit upd => rfl
    | succ n ih =>
      intro attempts h
      rw [validateClaim.eq_def]
      cases hs : validateStep env claim cachedChannel with
      | rejected lvl => rfl
      | retry =>
        simp only
        by_cases ha : attempts > 20
        · rw [dif_pos ha]
        · rw [dif_neg ha]
          have h2 := ih (attempts + 1) (by omega)
          rw [hs] at h2
          exact h2
      | commit upd => rfl
  exact H (21 - attempts) attempts le_rfl

/-- Inversion of a `universalChecks` commit: the committed channel is
the input channel, the claim's value is within `[0, updatedChannel.value]`,
a new channel passed the uniqueness registry, and against a cached claim
the increment is strictly positive. -/
theorem universalChecks_commit {env : ValidateEnv} {claim : SerializedClaim}
    {cachedChannel : Option PaymentChannel} {updatedChannel upd : PaymentChannel}
    (h : universalChecks env claim cachedChannel updatedChannel = .commit upd) :
    upd = updatedChannel ∧ 0 ≤ claim.value ∧ claim.value ≤ updatedChannel.value ∧
    (cachedChannel = none → env.registry (channelKey claim.channelId) = none) ∧
    (∀ c, cachedChannel = some c →
      0 < min claim.value updatedChannel.value - c.spent) := by
  simp only [universalChecks] at h
  by_cases h1 : claim.value < 0
  · rw [if_pos h1] at h
    exact absurd h (by simp)
  rw [if_neg h1] at h
  by_cases h2 : toLowerStr claim.contractAddress ≠ toLowerStr env.contractAddress
  · rw [if_pos h2] at h
    exact absurd h (by simp)
  rw [if_neg h2] at h
  by_cases h3 : env.isValidSig claim updatedChannel = true
  case neg =>
    rw [if_pos h3] at h
    exact absurd h (by simp)
  rw [if_neg (not_not_intro h3)] at h
  by_cases h4 : updatedChannel.value ≥ claim.value
  case neg =>
    rw [if_pos h4] at h
    exact absurd h (by simp)
  rw [if_neg (not_not_intro h4)] at h
  cases cachedChannel with
  | none =>
    cases hr : env.registry (channelKey claim.channelId) with
    | none =>
      rw [hr] at h
      simp only [StepResult.commit.injEq] at h
      subst h
      refine ⟨rfl, by omega, h4, ?_, ?_⟩
      · intro hnone
        rfl
      · intro c hc
        exact absurd hc (by simp)
    | some a =>
      rw [hr] at h
      exact absurd h (by simp)
  | some c =>
    simp only at h
    by_cases h5 : min claim.value updatedChannel.value - c.spent > 0
    · rw [if_neg (not_not_intro h5)] at h
      simp only [StepResult.commit.injEq] at h
      subst h
      refine ⟨rfl, by omega, h4, ?_, ?_⟩
      · intro hn
        exact absurd hn (by simp)
      · intro c' hc
        have hcc : c = c' := by injection hc
        subst hcc
        exact h5
    · rw [if_pos h5] at h
      exact absurd h (by simp)

/-- Inversion of a `validateStep` commit: the committed channel passed
the universal checks against itself. -/
theorem validateStep_commit {env : ValidateEnv} {claim : SerializedClaim}
    {cachedChannel : Option PaymentChannel} {upd : PaymentChannel}
    (h : validateStep env claim cachedChannel = .commit upd) :
    universalChecks env claim cachedChannel upd = .commit upd := by
  unfold validateStep at h
  cases cachedChannel with
  | none =>
    cases hf : env.fetchChannel claim.channelId with
    | none =>
      rw [hf] at h
      exact absurd h (by simp)
    | some updatedChannel =>
      rw [hf] at h
      dsimp only at h
      by_cases h1 : toLowerStr updatedChannel.receiver ≠ toLowerStr env.walletAddress
      · rw [if_pos h1] at h
        exact absurd h (by simp)
      rw [if_neg h1] at h
      by_cases h2 : updatedChannel.disputePeriod ≥ env.minIncomingDisputePeriod
      case neg =>
        rw [if_pos h2] at h
        exact absurd h (by simp)
      rw [if_neg (not_not_intro h2)] at h
      have hu := (universalChecks_commit h).1
      rw [hu] at h ⊢
      exact h
  | some cached =>
    dsimp only at h
    cases hf : (if claim.value > cached.value then env.fetchChannel claim.channelId
                else some cached) with
    | none =>
      rw [hf] at h
      exact absurd h (by simp)
    | some updatedChannel =>
      rw [hf] at h
      dsimp only at h
      by_cases h1 : claim.channelId ≠ cached.channelId
      · rw [if_pos h1] at h
        exact absurd h (by simp)
      rw [if_neg h1] at h
      have hu := (universalChecks_commit h).1
      rw [hu] at h ⊢
      exact h

/-- Unfolding of the machinomy claim branch of `handleData`. -/
theorem handleMachinomy_claim_eq (env : ValidateEnv) (c : SerializedClaim)
    (cached : Option PaymentChannel) :
    handleMachinomy env (.claim c) cached =
      { threw := false
        state := (validateClaim env c cached 0).channel
        logs := .debug :: (validateClaim env c cached 0).logs } := rfl

/-! ## Concrete sample data for witnesses and counterexamples -/

/-- A concrete signer environment. -/
def wSignEnv : SignEnv := ⟨fun _ _ _ => "sig"⟩

/-- A concrete outgoing channel: value 4 gwei of wei, 1 gwei spent. -/
def wCh : PaymentChannel :=
  { channelId := "c1", contractAddress := "0xc", sender := "0xs",
    receiver := "0xme", value := 4000000000, disputePeriod := 100,
    disputedUntil := none, spent := 1000000000, signature := "s0" }

/-- Concrete balances: 10 gwei payable, 5 gwei payout backlog. -/
def wSt : OutgoingAccountState := { payableBalance := 10, payoutAmount := 5 }

/-- Concrete balances with an empty payout backlog. -/
def wStZero : OutgoingAccountState := { payableBalance := 10, payoutAmount := 0 }

/-- A concrete incoming channel on-chain: value 5 gwei of wei, no claim. -/
def exChan : PaymentChannel :=
  { channelId := "c1", contractAddress := "0xc", sender := "0xs",
    receiver := "0xme", value := 5000000000, disputePeriod := 100,
    disputedUntil := none, spent := 0, signature := "s0" }

/-- A concrete validation environment where every on-chain lookup returns
`exChan`, signatures verify, and the registry is empty. -/
def exEnv : ValidateEnv :=
  { contractAddress := "0xc", walletAddress := "0xme",
    minIncomingDisputePeriod := 10, accountName := "alice",
    fetchChannel := fun _ => some exChan,
    isValidSig := fun _ _ => true,
    registry := fun _ => none }

/-- A concrete claim over `exChan` for 3 gwei of wei. -/
def exClaim : SerializedClaim :=
  { channelId := "c1", signature := "sigA", value := 3000000000,
    contractAddress := "0xc" }

/-- The same environment, but the registry already maps the channel to
this very account. -/
def exEnvSameAccount : ValidateEnv :=
  { exEnv with
    registry := fun k =>
      if k = "c1:incoming-channel" then some "alice" else none }

/-- A concrete zero-value (proof-of-channel) claim. -/
def zeroClaim : SerializedClaim :=
  { channelId := "c1", signature := "sigZ", value := 0,
    contractAddress := "0xc" }

/-- A concrete claim carrying a negative value. -/
def negClaim : SerializedClaim :=
  { channelId := "c1", signature := "sigN", value := -1,
    contractAddress := "0xc" }

/-- A concrete claim naming the wrong contract. -/
def wrongContractClaim : SerializedClaim :=
  { channelId := "c1", signature := "sigW", value := 100,
    contractAddress := "0xother" }

/-- A concrete channel-watcher environment: refresh always sees `wCh`,
fee 5 wei. -/
def wClaimEnv : ClaimChannelEnv :=
  { updateChannel := fun _ => some wCh, txFee := 5 }

/-! ## The claims -/

/-- C1: For every `validateClaim` invocation with a cached incoming claim
present, either some check fails and the unchanged prior state is
returned (not accepted), or the claim commits, which happens exactly when
the check sequence reaches a commit whose increment
`min(claim.value, channel.value) - cached.spent` is strictly positive;
the committed channel carries `spent = claim.value`, strictly above the
cached `spent` — so accepted incoming `spent` values are monotone
non-decreasing and strictly increasing after the initial claim. -/
theorem validateClaim_cached_spent_increases (env : ValidateEnv)
    (claim : SerializedClaim) (c : PaymentChannel) (attempts : Nat) :
    ((validateClaim env claim (some c) attempts).channel = some c ∧
      (validateClaim env claim (some c) attempts).accepted = false) ∨
    ((validateClaim env claim (some c) attempts).accepted = true ∧
      ∃ upd, validateStep env claim (some c) = .commit upd ∧
        0 < min claim.value upd.value - c.spent ∧
        (validateClaim env claim (some c) attempts).channel =
          some { upd with
                 channelId := claim.channelId
                 contractAddress := claim.contractAddress
                 signature := claim.signature
                 spent := claim.value } ∧
        c.spent < claim.value) := by
  rw [validateClaim_eq]
  cases hs : validateStep env claim (some c) with
  | rejected lvl => exact Or.inl ⟨rfl, rfl⟩
  | retry => exact Or.inl ⟨rfl, rfl⟩
  | commit upd =>
    have hu := universalChecks_commit (validateStep_commit hs)
    have hinc := hu.2.2.2.2 c rfl
    refine Or.inr ⟨rfl, upd, rfl, hinc, rfl, ?_⟩
    have hm := min_le_left claim.value upd.value
    omega

/-- C2: For every `createClaim` invocation that passes the guards
(positive settlement budget, channel present, positive remaining
capacity), the produced increment `i = min(remaining, budget)` in wei is
positive, `payableBalance` decreases by exactly `i` converted to gwei
rounded down, and `payoutAmount` is set to
`min(0, payoutAmount - i_gwei)` — exactly the clamp the spec records as a
possible bug in its design notes. -/
theorem createClaim_balance_update (env : SignEnv) (st : OutgoingAccountState)
    (ch : PaymentChannel)
    (hBudget : 0 < gweiToWei st.payoutAmount)
    (hRemaining : 0 < remainingInChannel ch) :
    0 < min (remainingInChannel ch) (gweiToWei st.payoutAmount) ∧
    (createClaim env st (some ch)).1.payableBalance =
      st.payableBalance -
        weiToGwei (min (remainingInChannel ch) (gweiToWei st.payoutAmount)) ∧
    (createClaim env st (some ch)).1.payoutAmount =
      min 0 (st.payoutAmount -
        weiToGwei (min (remainingInChannel ch) (gweiToWei st.payoutAmount))) := by
  refine ⟨lt_min hRemaining hBudget, ?_, ?_⟩ <;>
  · simp only [createClaim]
    rw [if_neg (by omega), if_neg (not_not_intro hRemaining)]

/-- Witness for C2 at concrete inputs. -/
theorem createClaim_balance_update_witness :
    0 < min (remainingInChannel wCh) (gweiToWei wSt.payoutAmount) ∧
    (createClaim wSignEnv wSt (some wCh)).1.payableBalance =
      wSt.payableBalance -
        weiToGwei (min (remainingInChannel wCh) (gweiToWei wSt.payoutAmount)) ∧
    (createClaim wSignEnv wSt (some wCh)).1.payoutAmount =
      min 0 (wSt.payoutAmount -
        weiToGwei (min (remainingInChannel wCh) (gweiToWei wSt.payoutAmount))) :=
  createClaim_balance_update wSignEnv wSt wCh (by decide) (by decide)

/-- C4: For every inbound ILP PREPARE, amounts above `maxPacketAmount`
are rejected with `AmountTooLargeError` leaving `receivableBalance`
unchanged; an amount exactly at the cap is not rejected for size; and an
amount that would push the receivable above `maxBalance` is rejected with
`InsufficientLiquidityError`, also leaving the balance unchanged. -/
theorem handleIlpPrepare_limits (maxP maxB recv amount : Int)
    (reply : IlpReplyKind) :
    (amount > maxP →
      handleIlpPrepare maxP maxB recv amount reply = (.amountTooLarge, recv)) ∧
    (amount = maxP →
      (handleIlpPrepare maxP maxB recv amount reply).1 ≠ .amountTooLarge) ∧
    (amount ≤ maxP → recv + amount > maxB →
      handleIlpPrepare maxP maxB recv amount reply =
        (.insufficientLiquidity, recv)) := by
  refine ⟨?_, ?_, ?_⟩
  · intro h
    simp only [handleIlpPrepare]
    rw [if_pos h]
  · intro h
    simp only [handleIlpPrepare]
    rw [if_neg (by omega)]
    by_cases h2 : recv + amount > maxB
    · rw [if_pos h2]
      simp
    · rw [if_neg h2]
      cases reply <;> simp
  · intro h1 h2
    simp only [handleIlpPrepare]
    rw [if_neg (by omega), if_pos h2]

/-- Witness for C4 at concrete inputs. -/
theorem handleIlpPrepare_limits_witness :
    handleIlpPrepare 10 100 0 11 .fulfill = (.amountTooLarge, 0) ∧
    (handleIlpPrepare 10 100 0 10 .fulfill).1 ≠ .amountTooLarge ∧
    handleIlpPrepare 10 100 95 8 .fulfill = (.insufficientLiquidity, 95) :=
  ⟨(handleIlpPrepare_limits 10 100 0 11 .fulfill).1 (by decide),
   (handleIlpPrepare_limits 10 100 0 10 .fulfill).2.1 rfl,
   (handleIlpPrepare_limits 10 100 95 8 .fulfill).2.2 (by decide) (by decide)⟩

/-- C5: For every inbound PREPARE that passes both admission limits, a
FULFILL reply leaves `receivableBalance` increased by exactly the packet
amount, and a REJECT reply rolls the credit back so the balance is
unchanged. -/
theorem handleIlpPrepare_conservation (maxP maxB recv amount : Int)
    (reply : IlpReplyKind)
    (hSize : amount ≤ maxP) (hLiq : recv + amount ≤ maxB) :
    (reply = .fulfill →
      handleIlpPrepare maxP maxB recv amount reply =
        (.handled .fulfill, recv + amount)) ∧
    (reply = .reject →
      handleIlpPrepare maxP maxB recv amount reply =
        (.handled .reject, recv)) := by
  constructor
  · intro hr
    subst hr
    simp only [handleIlpPrepare]
    rw [if_neg (by omega), if_neg (by omega)]
  · intro hr
    subst hr
    simp only [handleIlpPrepare]
    rw [if_neg (by omega), if_neg (by omega)]
    have hsub : recv + amount - amount = recv := by ring
    rw [hsub]

/-- Witness for C5 at concrete inputs. -/
theorem handleIlpPrepare_conservation_witness :
    handleIlpPrepare 10 100 50 7 .fulfill = (.handled .fulfill, 50 + 7) ∧
    handleIlpPrepare 10 100 50 7 .reject = (.handled .reject, 50) :=
  ⟨(handleIlpPrepare_conservation 10 100 50 7 .fulfill (by decide) (by decide)).1
     rfl,
   (handleIlpPrepare_conservation 10 100 50 7 .reject (by decide) (by decide)).2
     rfl⟩

/-- C7: For every deposit, the state committed after a successful
transaction takes the channel identity and on-chain fields from the
refreshed snapshot and `signature` and `spent` from the deposit
side-queue's final state; after a failed transaction, the committed
state is exactly the side-queue's final state, so concurrently signed
claims are never lost. -/
theorem depositToChannelCommit_merge (updatedChannel side : PaymentChannel)
    (sideQueueFinal : Option PaymentChannel) :
    (∃ c, depositToChannelCommit true updatedChannel (some side) = some c ∧
      c.channelId = updatedChannel.channelId ∧
      c.contractAddress = updatedChannel.contractAddress ∧
      c.sender = updatedChannel.sender ∧
      c.receiver = updatedChannel.receiver ∧
      c.value = updatedChannel.value ∧
      c.disputePeriod = updatedChannel.disputePeriod ∧
      c.disputedUntil = updatedChannel.disputedUntil ∧
      c.signature = side.signature ∧
      c.spent = side.spent) ∧
    depositToChannelCommit false updatedChannel sideQueueFinal =
      sideQueueFinal := by
  exact ⟨⟨_, rfl, rfl, rfl, rfl, rfl, rfl, rfl, rfl, rfl, rfl⟩, rfl⟩

/-- C3 counterexample: a first (new-channel) claim whose channelId the
registry already maps to THIS very account — not a different one — is
nonetheless rejected with no binding and the prior state unchanged,
although the identical claim is accepted when the registry entry is
absent (so every other check passes). The source rejects on any existing
registry entry (`typeof linkedAccount === 'string'`), not only on one
naming a different account. -/
theorem validateClaim_uniqueness_counterexample :
    exEnvSameAccount.registry (channelKey exClaim.channelId) =
      some exEnvSameAccount.accountName ∧
    (validateClaim exEnvSameAccount exClaim none 0).accepted = false ∧
    (validateClaim exEnvSameAccount exClaim none 0).channel = none ∧
    (validateClaim exEnvSameAccount exClaim none 0).registryWrite = none ∧
    (validateClaim exEnv exClaim none 0).accepted = true := by
  refine ⟨by decide, ?_, ?_, ?_, ?_⟩ <;>
  · rw [validateClaim_eq]
    decide

/-- C3 (amended): for every first (new-channel) claim, (a) whenever the
persistent registry already maps its channelId to ANY account — even this
very account — the claim is rejected: the unchanged empty prior state is
returned and no binding is written; and (b) whenever the claim is
accepted, the registry had no entry for the channelId and the binding
channelId to this account is written as part of the commit. -/
theorem validateClaim_uniqueness (env : ValidateEnv) (claim : SerializedClaim)
    (attempts : Nat) :
    (env.registry (channelKey claim.channelId) ≠ none →
      (validateClaim env claim none attempts).accepted = false ∧
      (validateClaim env claim none attempts).channel = none ∧
      (validateClaim env claim none attempts).registryWrite = none) ∧
    ((validateClaim env claim none attempts).accepted = true →
      env.registry (channelKey claim.channelId) = none ∧
      (validateClaim env claim none attempts).registryWrite =
        some (channelKey claim.channelId, env.accountName)) := by
  rw [validateClaim_eq]
  cases hs : validateStep env claim none with
  | rejected lvl =>
    refine ⟨fun _ => ⟨rfl, rfl, rfl⟩, fun hacc => ?_⟩
    exact absurd hacc (by simp [rejectOutcome])
  | retry =>
    refine ⟨fun _ => ⟨rfl, rfl, rfl⟩, fun hacc => ?_⟩
    exact absurd hacc (by simp [rejectOutcome])
  | commit upd =>
    have hr := (universalChecks_commit (validateStep_commit hs)).2.2.2.1 rfl
    exact ⟨fun hne => absurd hr hne, fun _ => ⟨hr, rfl⟩⟩

/-- Witness for C3 at concrete inputs: both directions instantiated. -/
theorem validateClaim_uniqueness_witness :
    ((validateClaim exEnvSameAccount exClaim none 0).accepted = false ∧
      (validateClaim exEnvSameAccount exClaim none 0).channel = none ∧
      (validateClaim exEnvSameAccount exClaim none 0).registryWrite = none) ∧
    (exEnv.registry (channelKey exClaim.channelId) = none ∧
      (validateClaim exEnv exClaim none 0).registryWrite =
        some (channelKey exClaim.channelId, exEnv.accountName)) :=
  ⟨(validateClaim_uniqueness exEnvSameAccount exClaim 0).1 (by decide),
   (validateClaim_uniqueness exEnv exClaim 0).2
     (by rw [validateClaim_eq]; decide)⟩

/-- C6: For every `createClaim` invocation — if the settlement budget in
wei is not positive, or no outgoing channel exists, or the channel has no
strictly positive remaining capacity, the prior state is returned
unchanged; otherwise the committed claim's `spent` equals the old `spent`
plus `min(budget, remaining)`, so committed outgoing `spent` is monotone
non-decreasing and never exceeds the channel's `value`. -/
theorem createClaim_guards_monotone (env : SignEnv) (st : OutgoingAccountState)
    (cached : Option PaymentChannel) :
    ((gweiToWei st.payoutAmount ≤ 0 ∨ cached = none ∨
        (∃ ch, cached = some ch ∧ remainingInChannel ch ≤ 0)) →
      createClaim env st cached = (st, cached)) ∧
    (∀ ch, cached = some ch → 0 < gweiToWei st.payoutAmount →
      0 < remainingInChannel ch →
      ∃ newCh, (createClaim env st cached).2 = some newCh ∧
        newCh.spent =
          ch.spent + min (remainingInChannel ch) (gweiToWei st.payoutAmount) ∧
        ch.spent ≤ newCh.spent ∧ newCh.spent ≤ ch.value) := by
  constructor
  · intro hguard
    rcases hguard with hb | hnone | ⟨ch, hch, hrem⟩
    · simp only [createClaim]
      rw [if_pos hb]
    · subst hnone
      by_cases hb : gweiToWei st.payoutAmount ≤ 0
      · simp only [createClaim]
        rw [if_pos hb]
      · simp only [createClaim]
        rw [if_neg hb]
    · subst hch
      by_cases hb : gweiToWei st.payoutAmount ≤ 0
      · simp only [createClaim]
        rw [if_pos hb]
      · simp only [createClaim]
        rw [if_neg hb]
        rw [if_pos (by omega)]
  · intro ch hch hb hrem
    subst hch
    refine ⟨signClaim env
      (spentFromChannel ch +
        min (remainingInChannel ch) (gweiToWei st.payoutAmount)) ch,
      ?_, rfl, ?_, ?_⟩
    · simp only [createClaim]
      rw [if_neg (by omega), if_neg (not_not_intro hrem)]
    · show ch.spent ≤ ch.spent +
        min (remainingInChannel ch) (gweiToWei st.payoutAmount)
      have hminpos := lt_min hrem hb
      omega
    · show ch.spent +
        min (remainingInChannel ch) (gweiToWei st.payoutAmount) ≤ ch.value
      have hmle := min_le_left (remainingInChannel ch) (gweiToWei st.payoutAmount)
      simp only [remainingInChannel] at hmle ⊢
      omega

/-- Witness for C6 at concrete inputs: a guarded no-op and a committed
claim. -/
theorem createClaim_guards_monotone_witness :
    createClaim wSignEnv wStZero (some wCh) = (wStZero, some wCh) ∧
    (∃ newCh, (createClaim wSignEnv wSt (some wCh)).2 = some newCh ∧
      newCh.spent =
        wCh.spent + min (remainingInChannel wCh) (gweiToWei wSt.payoutAmount) ∧
      wCh.spent ≤ newCh.spent ∧ newCh.spent ≤ wCh.value) :=
  ⟨(createClaim_guards_monotone wSignEnv wStZero (some wCh)).1
     (Or.inl (by decide)),
   (createClaim_guards_monotone wSignEnv wSt (some wCh)).2 wCh rfl
     (by decide) (by decide)⟩

/-- C8: For every `claimIfProfitable` invocation whose cached incoming
channel is still present on-chain — if `requireDisputed` holds and the
refreshed channel is not disputed, the refreshed state is returned with
no transaction submitted; and with no `authorize` callback (and the
dispute gate not blocking), the claim transaction is submitted iff the
estimated fee is strictly below the refreshed channel's `spent`. -/
theorem claimIfProfitable_policy (env : ClaimChannelEnv)
    (requireDisputed : Bool) (authorize : Option Bool)
    (cached updatedChannel : PaymentChannel)
    (hUpd : env.updateChannel cached = some updatedChannel) :
    (requireDisputed = true → isDisputed updatedChannel = false →
      claimIfProfitable env requireDisputed authorize (some cached) =
        { channel := some updatedChannel, txSubmitted := false }) ∧
    (authorize = none →
      (requireDisputed = false ∨ isDisputed updatedChannel = true) →
      ((claimIfProfitable env requireDisputed authorize
          (some cached)).txSubmitted = true ↔
        env.txFee < updatedChannel.spent)) := by
  constructor
  · intro hreq hdisp
    simp only [claimIfProfitable]
    rw [hUpd]
    dsimp only
    rw [if_pos ⟨hreq, by simp [hdisp]⟩]
  · intro hauth hgate
    subst hauth
    simp only [claimIfProfitable]
    rw [hUpd]
    dsimp only
    have hcond : ¬ (requireDisputed = true ∧ ¬ isDisputed updatedChannel = true) := by
      rcases hgate with hg | hg
      · intro hc
        rw [hg] at hc
        exact Bool.false_ne_true hc.1
      · intro hc
        exact hc.2 hg
    rw [if_neg hcond]
    by_cases hfee : env.txFee ≥ updatedChannel.spent
    · rw [if_pos hfee]
      constructor
      · intro hsub
        exact absurd hsub (by simp)
      · intro hlt
        exact absurd hlt (by omega)
    · rw [if_neg hfee]
      constructor
      · intro _
        omega
      · intro _
        rfl

/-- Witness for C8 at concrete inputs: the dispute no-op and the default
fee policy. -/
theorem claimIfProfitable_policy_witness :
    claimIfProfitable wClaimEnv true none (some wCh) =
      { channel := some wCh, txSubmitted := false } ∧
    ((claimIfProfitable wClaimEnv false none (some wCh)).txSubmitted = true ↔
      wClaimEnv.txFee < wCh.spent) :=
  ⟨(claimIfProfitable_policy wClaimEnv true none wCh wCh rfl).1 rfl (by decide),
   (claimIfProfitable_policy wClaimEnv false none wCh wCh rfl).2 rfl
     (Or.inl rfl)⟩

/-- C9 counterexample: a machinomy claim with a negative value fails
validation and is silently dropped with the state unchanged, but the
failure is logged at ERROR (`_log.error('Invalid claim: value is
negative')`), not at debug as the claim states. -/
theorem handleMachinomy_log_level_counterexample :
    handleMachinomy exEnv (.claim negClaim) (some exChan) =
      { threw := false, state := some exChan, logs := [.debug, .error] } ∧
    LogLevel.error ≠ LogLevel.debug := by
  constructor
  · rw [handleMachinomy_claim_eq, validateClaim_eq]
    decide
  · decide

/-- C9 (amended): every machinomy payload that parses but fails the
schema check, and every claim that fails a validation check, is silently
dropped: no error escapes `handleData`, the incoming state is unchanged,
and the failure is logged exactly once — at debug for the schema check
and most validation checks, though the negative-value and
unexpectedly-closed-channel checks log at error. -/
theorem handleMachinomy_silent_drop (env : ValidateEnv) (c : SerializedClaim)
    (cached : Option PaymentChannel) :
    (handleMachinomy env .badSchema cached =
      { threw := false, state := cached, logs := [.debug, .debug] }) ∧
    ((validateClaim env c cached 0).accepted = false →
      ∃ lvl, handleMachinomy env (.claim c) cached =
        { threw := false, state := cached, logs := [.debug, lvl] }) := by
  refine ⟨rfl, ?_⟩
  intro hacc
  rw [validateClaim_eq] at hacc
  rw [handleMachinomy_claim_eq, validateClaim_eq]
  cases hs : validateStep env c cached with
  | rejected lvl => exact ⟨lvl, rfl⟩
  | retry => exact ⟨.debug, rfl⟩
  | commit upd =>
    rw [hs] at hacc
    exact absurd hacc (by simp [commitOutcome])

/-- Witness for C9 at concrete inputs: a schema failure and a
wrong-contract validation failure, both dropped silently. -/
theorem handleMachinomy_silent_drop_witness :
    (handleMachinomy exEnv .badSchema (some exChan) =
      { threw := false, state := some exChan, logs := [.debug, .debug] }) ∧
    (∃ lvl, handleMachinomy exEnv (.claim wrongContractClaim) (some exChan) =
      { threw := false, state := some exChan, logs := [.debug, lvl] }) :=
  ⟨(handleMachinomy_silent_drop exEnv wrongContractClaim (some exChan)).1,
   (handleMachinomy_silent_drop exEnv wrongContractClaim (some exChan)).2
     (by rw [validateClaim_eq]; decide)⟩

/-- C10: For every `validateClaim` acceptance with no cached claim and a
zero-value claim (the only way the increment can be zero), the money
handler is not invoked and nothing is debited from `receivableBalance`,
yet the channel is still committed with `spent = 0` and the claim's
signature; and any acceptance against a cached claim does invoke the
money handler (its increment is positive). -/
theorem validateClaim_zero_claim_frame (env : ValidateEnv)
    (claim : SerializedClaim) (attempts : Nat) :
    ((validateClaim env claim none attempts).accepted = true →
      claim.value = 0 →
      (validateClaim env claim none attempts).moneyHandlerArg = none ∧
      (validateClaim env claim none attempts).receivableDebit = 0 ∧
      ∃ newCh, (validateClaim env claim none attempts).channel = some newCh ∧
        newCh.spent = 0 ∧ newCh.signature = claim.signature) ∧
    (∀ c, (validateClaim env claim (some c) attempts).accepted = true →
      (validateClaim env claim (some c) attempts).moneyHandlerArg ≠ none) := by
  constructor
  · rw [validateClaim_eq]
    cases hs : validateStep env claim none with
    | rejected lvl =>
      intro hacc
      exact absurd hacc (by simp [rejectOutcome])
    | retry =>
      intro hacc
      exact absurd hacc (by simp [rejectOutcome])
    | commit upd =>
      intro _ hzero
      have hu := universalChecks_commit (validateStep_commit hs)
      have hvle : claim.value ≤ upd.value := hu.2.2.1
      simp only [commitOutcome]
      set m := min claim.value upd.value with hm
      have hm0 : m = 0 := by
        rw [hm, hzero]
        exact min_eq_left (by omega)
      refine ⟨?_, ?_, ?_⟩
      · rw [if_neg (by omega)]
      · rw [if_neg (by omega)]
      · exact ⟨_, rfl, hzero, rfl⟩
  · intro c
    rw [validateClaim_eq]
    cases hs : validateStep env claim (some c) with
    | rejected lvl =>
      intro hacc
      exact absurd hacc (by simp [rejectOutcome])
    | retry =>
      intro hacc
      exact absurd hacc (by simp [rejectOutcome])
    | commit upd =>
      intro _
      have hu := universalChecks_commit (validateStep_commit hs)
      have hinc := hu.2.2.2.2 c rfl
      simp only [commitOutcome]
      set m := min claim.value upd.value with hm
      rw [if_pos (by omega)]
      simp

/-- Witness for C10 at concrete inputs: an accepted zero-value
proof-of-channel claim. -/
theorem validateClaim_zero_claim_frame_witness :
    (validateClaim exEnv zeroClaim none 0).moneyHandlerArg = none ∧
    (validateClaim exEnv zeroClaim none 0).receivableDebit = 0 ∧
    ∃ newCh, (validateClaim exEnv zeroClaim none 0).channel = some newCh ∧
      newCh.spent = 0 ∧ newCh.signature = zeroClaim.signature :=
  (validateClaim_zero_claim_frame exEnv zeroClaim 0).1
    (by rw [validateClaim_eq]; decide) rfl

end IlpEth
